/-
Verification of the Mexico e-commerce dataset generator
(src/data_generation.py) against its natural-language specification.

The Python source is shallowly embedded: every random draw of the program
(numpy, python random, Faker) is modelled as an explicit input carried in a
draws structure, datetimes are modelled as integer second timestamps, and
Python floats are modelled as exact rationals (binary floating-point
representation error is abstracted away; all constants of the program are
short decimals).  Fallible dictionary lookups that the program only ever
performs on keys drawn from the dictionary itself are given a default value
and documented at the definition.
-/
import Mathlib

/-- Python round() to the nearest integer with ties going to the even
integer (banker's rounding), modelled on exact rationals. -/
def roundHalfEven (q : ℚ) : ℤ :=
  let f : ℤ := ⌊q⌋
  let frac : ℚ := q - (f : ℚ)
  if frac < 1/2 then f
  else if 1/2 < frac then f + 1
  else if f % 2 = 0 then f else f + 1

/-- Python round(x, 2), modelled exactly on rationals. -/
def round2 (q : ℚ) : ℚ := ((roundHalfEven (q * 100) : ℤ) : ℚ) / 100

/-- Python round(x, 4), modelled exactly on rationals. -/
def round4 (q : ℚ) : ℚ := ((roundHalfEven (q * 10000) : ℤ) : ℚ) / 10000

/-- Python int() on a rational: truncation toward zero, as in int(x). -/
def pyInt (q : ℚ) : ℤ := Int.tdiv q.num (q.den : ℤ)

/-- Zero-padded 5-digit decimal rendering of i, as in the Python format
string ECOMMX-2024-{i:05d} used for order ids. -/
def pad5 (i : ℕ) : String :=
  let s := toString i
  String.mk (List.replicate (5 - s.length) '0') ++ s

/-- Seconds per day; timedelta(days = d) adds d * 86400 seconds. -/
def secondsPerDay : ℤ := 86400

/-- Models faker random_int(lo, hi): an inclusive-range draw.  The raw
stream value is reduced into the range. -/
def fakerRandomInt (lo hi : ℕ) (draw : ℕ) : ℕ := lo + draw % (hi - lo + 1)

/-- The 32-state list self.estados_mexico (lines 65-74 of the source). -/
def estadosMexico : List String :=
  ["Aguascalientes", "Baja California", "Baja California Sur",
   "Campeche", "Chiapas", "Chihuahua", "Coahuila", "Colima",
   "Ciudad de México", "Durango", "Guanajuato", "Guerrero",
   "Hidalgo", "Jalisco", "México", "Michoacán", "Morelos",
   "Nayarit", "Nuevo León", "Oaxaca", "Puebla", "Querétaro",
   "Quintana Roo", "San Luis Potosí", "Sinaloa", "Sonora",
   "Tabasco", "Tamaulipas", "Tlaxcala", "Veracruz", "Yucatán",
   "Zacatecas"]

/-- The region table self.regiones (lines 77-86), in insertion order:
region name paired with its member-state list. -/
def regiones : List (String × List String) :=
  [("Centro", ["Ciudad de México", "México", "Puebla", "Morelos",
               "Tlaxcala", "Hidalgo", "Querétaro"]),
   ("Norte", ["Nuevo León", "Chihuahua", "Coahuila", "Sonora",
              "Tamaulipas", "Baja California", "Baja California Sur"]),
   ("Occidente", ["Jalisco", "Michoacán", "Guanajuato", "Aguascalientes",
                  "Colima", "Nayarit", "Sinaloa"]),
   ("Sur", ["Guerrero", "Oaxaca", "Chiapas", "Veracruz", "Tabasco"]),
   ("Península", ["Yucatán", "Quintana Roo", "Campeche"])]

/-- The carrier table self.transportistas (lines 89-97): name paired with
(prob, costo_base, velocidad). -/
def transportistas : List (String × ℚ × ℚ × ℚ) :=
  [("Estafeta", (28/100, 120, 7/10)),
   ("DHL", (22/100, 180, 9/10)),
   ("FedEx", (18/100, 160, 8/10)),
   ("Correos de México", (15/100, 80, 4/10)),
   ("UPS", (10/100, 170, 85/100)),
   ("Redpack", (5/100, 100, 6/10)),
   ("Paquetexpress", (2/100, 90, 65/100))]

/-- Carrier names in dictionary insertion order: list(self.transportistas.keys()),
the population of np.random.choice in _get_random_transportista. -/
def transportistasNames : List String := transportistas.map (fun p => p.1)

/-- Lookup self.transportistas[t]['costo_base'].  In Python a missing key
raises; the carrier name is always drawn from the key list, so the default
0 branch is unreachable in any modelled run. -/
def costoBaseDe (t : String) : ℚ :=
  ((transportistas.find? (fun p => p.1 == t)).map (fun p => p.2.2.1)).getD 0

/-- Category names in dictionary insertion order (lines 100-108). -/
def categoriasNames : List String :=
  ["Moda y Accesorios", "Electrónicos", "Hogar y Jardín", "Salud y Belleza",
   "Deportes", "Libros y Educación", "Juguetes y Bebés"]

/-- Payment-method names in dictionary insertion order (lines 111-117). -/
def metodosPagoNames : List String :=
  ["Tarjeta de Débito", "Tarjeta de Crédito", "Efectivo (OXXO)", "PayPal",
   "Transferencia"]

/-- Sales-channel names in dictionary insertion order (lines 120-127). -/
def canalesVentaNames : List String :=
  ["Mercado Libre", "Amazon México", "Liverpool", "Coppel", "Walmart",
   "Sitio Web Propio"]

/-- The base-transit table self.tiempos_base[transportista][tipo]
(lines 130-138).  A key outside the table would raise KeyError in Python;
modelled as 0, unreachable since both keys are always drawn from the
corresponding key sets. -/
def tiemposBase (transportista tipo : String) : ℕ :=
  if transportista = "Estafeta" then
    (if tipo = "local" then 2 else if tipo = "regional" then 4 else 6)
  else if transportista = "DHL" then
    (if tipo = "local" then 1 else if tipo = "regional" then 2 else 3)
  else if transportista = "FedEx" then
    (if tipo = "local" then 2 else if tipo = "regional" then 3 else 4)
  else if transportista = "Correos de México" then
    (if tipo = "local" then 5 else if tipo = "regional" then 8 else 12)
  else if transportista = "UPS" then
    (if tipo = "local" then 1 else if tipo = "regional" then 2 else 4)
  else if transportista = "Redpack" then
    (if tipo = "local" then 3 else if tipo = "regional" then 5 else 7)
  else if transportista = "Paquetexpress" then
    (if tipo = "local" then 3 else if tipo = "regional" then 5 else 8)
  else 0

/-- _get_region_from_estado (lines 156-161): scan the region table in
insertion order, return the first region whose state list contains the
state, and fall back to the default region Centro when no region lists
the state. -/
def getRegionFromEstado (estado : String) : String :=
  match regiones.find? (fun p => p.2.contains estado) with
  | some p => p.1
  | none => "Centro"

/-- _es_temporada_alta (lines 197-214) on the order date's month and day. -/
def esTemporadaAlta (mes dia : ℕ) : Bool :=
  if mes = 5 ∨ mes = 11 ∨ mes = 12 then true
  else if mes = 4 ∧ dia = 30 then true
  else if mes = 2 ∧ dia = 14 then true
  else false

/-- _calcular_tiempo_entrega (lines 163-195).  The two in-function draws
(np.random.normal(0, 0.5) and, on peak season, np.random.uniform(1.2, 2.0))
are passed in as variab and impacto. -/
def calcularTiempoEntrega (transportista estadoOrigen estadoDestino : String)
    (esTemporada : Bool) (variab impacto : ℚ) : ℤ :=
  let tipo : String :=
    if estadoOrigen = estadoDestino then "local"
    else if getRegionFromEstado estadoOrigen = getRegionFromEstado estadoDestino
      then "regional"
    else "nacional"
  let tiempoBase : ℕ := tiemposBase transportista tipo
  let impactoUsado : ℚ := if esTemporada then impacto else 1
  max 1 (roundHalfEven ((tiempoBase : ℚ) * impactoUsado + variab))

/-- Result of _generar_fechas_realistas: the three timestamps (seconds)
and the two duration fields it returns (lines 245-251). -/
structure Fechas where
  order_date : ℤ
  shipped_date : ℤ
  delivered_date : ℤ
  processing_days : ℕ
  delivery_days : ℤ
deriving DecidableEq

/-- _generar_fechas_realistas (lines 216-251).  Draws passed in: the faker
order timestamp with its month and day, the processing-days choice index
(np.random.choice([1,2,3])), the transit jitter and peak multiplier, and
the final adjustment index (np.random.randint(-1, 2), giving -1, 0 or 1). -/
def generarFechasRealistas (transportista estadoDestino : String)
    (orderTs : ℤ) (orderMes orderDia : ℕ) (procIdx : Fin 3)
    (variab impacto : ℚ) (adjIdx : Fin 3) : Fechas :=
  let diasProcesamiento : ℕ := [1, 2, 3].getD procIdx.val 0
  let shippedTs : ℤ := orderTs + (diasProcesamiento : ℤ) * secondsPerDay
  let esTemporada : Bool := esTemporadaAlta orderMes orderDia
  let diasEntregaBase : ℤ :=
    calcularTiempoEntrega transportista "Ciudad de México" estadoDestino
      esTemporada variab impacto
  let diasEntrega : ℤ := diasEntregaBase + ((adjIdx.val : ℤ) - 1)
  let deliveredTs : ℤ := shippedTs + (max 1 diasEntrega) * secondsPerDay
  { order_date := orderTs, shipped_date := shippedTs,
    delivered_date := deliveredTs, processing_days := diasProcesamiento,
    delivery_days := diasEntrega }

/-- Result of _generar_datos_producto (lines 276-280). -/
structure Producto where
  product_price_mxn : ℚ
  product_weight_kg : ℚ
  quantity : ℕ
deriving DecidableEq

/-- _generar_datos_producto (lines 253-280).  precioRaw and pesoRaw are the
raw uniform draws (the uniform price band and the category-dependent weight
band constrain only their distribution); cantidadNormal is the outcome of
np.random.random() < 0.95; the two index draws model np.random.randint(1, 6)
and np.random.randint(6, 11). -/
def generarDatosProducto (categoria : String) (precioRaw pesoRaw : ℚ)
    (cantidadNormal : Bool) (loIdx hiIdx : Fin 5) : Producto :=
  let cantidad : ℕ := if cantidadNormal then 1 + loIdx.val else 6 + hiIdx.val
  { product_price_mxn := round2 precioRaw,
    product_weight_kg := round2 pesoRaw,
    quantity := cantidad }

/-- Result of _generar_datos_cliente (lines 296-300). -/
structure Cliente where
  customer_age_group : String
  customer_loyalty_months : ℤ
  purchase_frequency : ℕ
deriving DecidableEq

/-- _generar_datos_cliente (lines 282-300).  lealtadRaw models the
exponential draw (always nonnegative in numpy) and frecuencia the Poisson
draw; loyalty is min(int(raw), 60) with Python int() truncation. -/
def generarDatosCliente (edadIdx : Fin 5) (lealtadRaw : ℚ) (frecuencia : ℕ) :
    Cliente :=
  let gruposEdad : List String := ["18-24", "25-34", "35-44", "45-54", "55+"]
  { customer_age_group := gruposEdad.getD edadIdx.val "",
    customer_loyalty_months := min (pyInt lealtadRaw) 60,
    purchase_frequency := frecuencia }

/-- Result of _generar_datos_pago (lines 323-327). -/
structure Pago where
  payment_method : String
  transaction_status : String
  payment_installments : ℕ
deriving DecidableEq

/-- _generar_datos_pago (lines 302-327).  montoTotal is taken but unused,
as in the source.  statusAut is the outcome of np.random.random() < 0.67
and statusRev the outcome of the second draw compared with 0.8; msiIdx
models np.random.choice([1,3,6,12,18]). -/
def generarDatosPago (montoTotal : ℚ) (metodoIdx : Fin 5)
    (statusAut statusRev : Bool) (msiIdx : Fin 5) : Pago :=
  let metodo : String := metodosPagoNames.getD metodoIdx.val ""
  let status : String :=
    if statusAut then "Autorizada"
    else if statusRev then "En revisión"
    else "Rechazada"
  let msi : ℕ :=
    if metodo = "Tarjeta de Crédito" ∧ status = "Autorizada" then
      [1, 3, 6, 12, 18].getD msiIdx.val 1
    else 1
  { payment_method := metodo, transaction_status := status,
    payment_installments := msi }

/-- _calcular_costo_envio (lines 329-357).  variacion is the in-function
uniform(0.9, 1.1) draw.  The source name of this helper ends in a word the
development cannot use as an identifier suffix, hence the Mxn suffix. -/
def calcularCostoEnvioMxn (transportista : String) (peso : ℚ)
    (distancia : String) (esExpress : Bool) (variacion : ℚ) : ℚ :=
  let costoBase : ℚ := costoBaseDe transportista
  let costoPeso : ℚ := peso * 15
  let ajusteDistancia : ℚ :=
    if distancia = "local" then 1
    else if distancia = "regional" then 3/2
    else 2
  let ajusteExpress : ℚ := if esExpress then 2 else 1
  let costoFinal : ℚ := (costoBase + costoPeso) * ajusteDistancia * ajusteExpress
  round2 (costoFinal * variacion)

/-- One full order record as built in generate_dataset (lines 533-594).
The 39 dictionary keys are kept, except shipping_cost_to_price_ratio which
is shortened to shipping_cost_to_price.  Date-valued fields are second
timestamps.  The four fields that the error injector can null out are
Option-valued; clean generation always fills them with some. -/
structure Registro where
  order_id : String
  customer_id : String
  order_date : ℤ
  shipped_date : ℤ
  delivered_date : ℤ
  processing_days : ℕ
  delivery_days : ℤ
  promised_delivery_days : ℤ
  actual_delivery_days : ℤ
  delivery_delay_days : ℤ
  delivery_met_promise : ℕ
  product_category : String
  product_price_mxn : Option ℚ
  product_weight_kg : ℚ
  quantity : ℕ
  total_amount_mxn : ℚ
  shipping_carrier : String
  shipping_tier : String
  shipping_cost_mxn : Option ℚ
  distance_km : Option ℤ
  shipping_type : String
  customer_state : String
  customer_region : String
  customer_age_group : String
  customer_loyalty_months : Option ℤ
  purchase_frequency : ℕ
  is_urban : ℕ
  payment_method : String
  transaction_status : String
  payment_installments : ℕ
  sales_channel : String
  platform_name : String
  is_peak_season : ℕ
  customer_delivery_rating : ℤ
  delivery_issue : String
  shipping_cost_to_price : ℚ
  is_frequent_customer : ℕ
  is_loyal_customer : ℕ
  high_value_order : ℕ
deriving DecidableEq, Inhabited

/-- All numpy-stream draws consumed while building one record, in the order
generate_dataset (lines 441-594) and its helpers consume them.  Index draws
model np.random.choice over a fixed list (the result is always a list
element); Bool draws model the comparison outcome of a np.random.random()
coin; unconstrained rational draws model continuous distributions. -/
structure NpDraws where
  edadIdx : Fin 5
  lealtadRaw : ℚ
  frecuencia : ℕ
  estadoIdx : Fin 32
  categoriaIdx : Fin 7
  precioRaw : ℚ
  pesoRaw : ℚ
  cantidadNormal : Bool
  cantidadLoIdx : Fin 5
  cantidadHiIdx : Fin 5
  carrierIdx : Fin 7
  esExpress : Bool
  procIdx : Fin 3
  variab : ℚ
  impacto : ℚ
  adjIdx : Fin 3
  distLocalKm : ℤ
  distRegionalKm : ℤ
  distNacionalKm : ℤ
  variacion : ℚ
  metodoIdx : Fin 5
  statusAut : Bool
  statusRev : Bool
  msiIdx : Fin 5
  canalIdx : Fin 6
  urbano : Bool
  ratingAdjIdx : Fin 3
  problemaIdx : Fin 5
deriving DecidableEq

/-- The draws consumed from the Faker generator while building one record:
fake.date_time_between (order timestamp plus its calendar month and day)
and the raw stream value behind fake.random_int(10000, 99999). -/
structure FakerDraws where
  orderTs : ℤ
  orderMes : ℕ
  orderDia : ℕ
  custIdDraw : ℕ
deriving DecidableEq

/-- estado_cliente = np.random.choice(self.estados_mexico), line 448. -/
def estadoDe (d : NpDraws) : String := estadosMexico.getD d.estadoIdx.val ""

/-- region_cliente = self._get_region_from_estado(estado_cliente), line 449. -/
def regionDe (d : NpDraws) : String := getRegionFromEstado (estadoDe d)

/-- categoria = self._get_random_categoria(), line 452. -/
def categoriaDe (d : NpDraws) : String := categoriasNames.getD d.categoriaIdx.val ""

/-- transportista = self._get_random_transportista(), line 456. -/
def transportistaDe (d : NpDraws) : String :=
  transportistasNames.getD d.carrierIdx.val ""

/-- tipo_distancia branch of lines 465-473. -/
def tipoDistanciaDe (d : NpDraws) : String :=
  if estadoDe d = "Ciudad de México" then "local"
  else if regionDe d = "Centro" then "regional"
  else "nacional"

/-- distancia_km branch of lines 465-473; each arm has its own randint
draw, carried separately in the draws structure. -/
def distanciaKmDe (d : NpDraws) : ℤ :=
  if estadoDe d = "Ciudad de México" then d.distLocalKm
  else if regionDe d = "Centro" then d.distRegionalKm
  else d.distNacionalKm

/-- datos_cliente (line 447). -/
def clienteDe (d : NpDraws) : Cliente :=
  generarDatosCliente d.edadIdx d.lealtadRaw d.frecuencia

/-- datos_producto (line 453). -/
def productoDe (d : NpDraws) : Producto :=
  generarDatosProducto (categoriaDe d) d.precioRaw d.pesoRaw d.cantidadNormal
    d.cantidadLoIdx d.cantidadHiIdx

/-- fechas = self._generar_fechas_realistas(transportista, estado_cliente),
line 462. -/
def fechasDe (d : NpDraws) (f : FakerDraws) : Fechas :=
  generarFechasRealistas (transportistaDe d) (estadoDe d) f.orderTs f.orderMes
    f.orderDia d.procIdx d.variab d.impacto d.adjIdx

/-- costo_envio (lines 476-479). -/
def costoEnvioDe (d : NpDraws) : ℚ :=
  calcularCostoEnvioMxn (transportistaDe d) (productoDe d).product_weight_kg
    (tipoDistanciaDe d) d.esExpress d.variacion

/-- monto_total = price * quantity + shipping cost (line 482), before the
2-decimal rounding applied when it is stored in the record. -/
def montoTotalDe (d : NpDraws) : ℚ :=
  (productoDe d).product_price_mxn * ((productoDe d).quantity : ℚ) +
    costoEnvioDe d

/-- datos_pago (line 483). -/
def pagoDe (d : NpDraws) : Pago :=
  generarDatosPago (montoTotalDe d) d.metodoIdx d.statusAut d.statusRev d.msiIdx

/-- canal_venta = np.random.choice over the sales-channel keys (lines 486-488). -/
def canalVentaDe (d : NpDraws) : String :=
  canalesVentaNames.getD d.canalIdx.val ""

/-- dias_prometidos (lines 492-496): base transit lookup for the carrier
and distance tier, reduced by 2 and floored at 1 when express. -/
def diasPrometidosDe (d : NpDraws) : ℤ :=
  let base : ℕ := tiemposBase (transportistaDe d) (tipoDistanciaDe d)
  if d.esExpress then max 1 ((base : ℤ) - 2) else (base : ℤ)

/-- dias_reales = (fechas['delivered_date'] - fechas['shipped_date']).days
(line 498); timedelta .days floor-divides the span by one day of seconds. -/
def diasRealesDe (d : NpDraws) (f : FakerDraws) : ℤ :=
  Int.fdiv ((fechasDe d f).delivered_date - (fechasDe d f).shipped_date)
    secondsPerDay

/-- diferencia_dias = dias_reales - dias_prometidos (line 501). -/
def diferenciaDiasDe (d : NpDraws) (f : FakerDraws) : ℤ :=
  diasRealesDe d f - diasPrometidosDe d

/-- calificacion_base step function of the delay (lines 503-517). -/
def calificacionBaseDe (d : NpDraws) (f : FakerDraws) : ℤ :=
  if diferenciaDiasDe d f ≤ 0 then 5
  else if diferenciaDiasDe d f ≤ 2 then 4
  else if diferenciaDiasDe d f ≤ 5 then 3
  else if diferenciaDiasDe d f ≤ 10 then 2
  else 1

/-- calificacion = max(1, min(5, base + randint(-1, 2))) (line 520). -/
def calificacionDe (d : NpDraws) (f : FakerDraws) : ℤ :=
  max 1 (min 5 (calificacionBaseDe d f + ((d.ratingAdjIdx.val : ℤ) - 1)))

/-- problema_entrega (lines 523-530): np.random.choice over the fixed
5-entry issue list; the delay-dependent reweighting changes only the
distribution, never the population, so the drawn element is modelled by an
index into that list. -/
def problemaDe (d : NpDraws) : String :=
  ["Ninguno", "Retraso", "Paquete dañado", "Extraviado",
   "Entregado en lugar equivocado"].getD d.problemaIdx.val ""

/-- One loop iteration of generate_dataset (lines 441-594): the complete
record appended for sequence index i, as a function of the numpy draws d
and the Faker draws f consumed in that iteration. -/
def generarRegistro (i : ℕ) (d : NpDraws) (f : FakerDraws) : Registro :=
  { order_id := "ECOMMX-2024-" ++ pad5 i,
    customer_id := "CUST-" ++ toString (fakerRandomInt 10000 99999 f.custIdDraw),
    order_date := (fechasDe d f).order_date,
    shipped_date := (fechasDe d f).shipped_date,
    delivered_date := (fechasDe d f).delivered_date,
    processing_days := (fechasDe d f).processing_days,
    delivery_days := (fechasDe d f).delivery_days,
    promised_delivery_days := diasPrometidosDe d,
    actual_delivery_days := diasRealesDe d f,
    delivery_delay_days := diferenciaDiasDe d f,
    delivery_met_promise := if diferenciaDiasDe d f ≤ 0 then 1 else 0,
    product_category := categoriaDe d,
    product_price_mxn := some (productoDe d).product_price_mxn,
    product_weight_kg := (productoDe d).product_weight_kg,
    quantity := (productoDe d).quantity,
    total_amount_mxn := round2 (montoTotalDe d),
    shipping_carrier := transportistaDe d,
    shipping_tier := if d.esExpress then "Express" else "Estándar",
    shipping_cost_mxn := some (costoEnvioDe d),
    distance_km := some (distanciaKmDe d),
    shipping_type := tipoDistanciaDe d,
    customer_state := estadoDe d,
    customer_region := regionDe d,
    customer_age_group := (clienteDe d).customer_age_group,
    customer_loyalty_months := some (clienteDe d).customer_loyalty_months,
    purchase_frequency := (clienteDe d).purchase_frequency,
    is_urban := if d.urbano then 1 else 0,
    payment_method := (pagoDe d).payment_method,
    transaction_status := (pagoDe d).transaction_status,
    payment_installments := (pagoDe d).payment_installments,
    sales_channel :=
      if canalVentaDe d ≠ "Sitio Web Propio" then "Marketplace" else "D2C",
    platform_name := canalVentaDe d,
    is_peak_season := if esTemporadaAlta f.orderMes f.orderDia then 1 else 0,
    customer_delivery_rating := calificacionDe d f,
    delivery_issue := problemaDe d,
    shipping_cost_to_price :=
      round4 (costoEnvioDe d / (productoDe d).product_price_mxn),
    is_frequent_customer :=
      if (clienteDe d).purchase_frequency > 3 then 1 else 0,
    is_loyal_customer :=
      if (clienteDe d).customer_loyalty_months > 12 then 1 else 0,
    high_value_order := if montoTotalDe d > 5000 then 1 else 0 }

/-- Generator state after __init__ (lines 42-59).  np.random.seed(seed) and
random.seed(seed) fix the numpy and python streams to the seed, but
Faker('es_MX') is constructed WITHOUT seeding it (Faker.seed is never
called), so the Faker stream keeps whatever ambient state the process had:
the ambient faker draws are an extra input that the seed does not fix. -/
structure GeneratorState where
  seed : ℕ
  nRecords : ℕ
  npSeed : ℕ
  pySeed : ℕ
  fakerAmbient : FakerDraws
deriving DecidableEq

/-- MexicoEcommerceGenerator.__init__ (lines 42-59). -/
def mexicoEcommerceGeneratorInit (seed n : ℕ) (ambient : FakerDraws) :
    GeneratorState :=
  { seed := seed, nRecords := n, npSeed := seed, pySeed := seed,
    fakerAmbient := ambient }

/-- Positional update of one list element (no-op when the index is out of
range), used to model a pandas .at/.iloc single-row write on a DataFrame
with the default RangeIndex, where label and position coincide. -/
def updateNth {α : Type} : List α → ℕ → (α → α) → List α
  | [], _, _ => []
  | a :: l, 0, g => g a :: l
  | a :: l, n + 1, g => a :: updateNth l n g

/-- The defect applied to one selected row, with the draws its branch
consumes: tipo_error = np.random.choice of the five kinds (line 374), the
missing-column choice, the 50% coins, and the outlier-distance randint. -/
inductive TipoError where
  | missing (col : Fin 4)
  | outlier (coin : Bool) (distKm : ℤ)
  | typo (coin : Bool)
  | duplicate
  | inconsistent (coin : Bool)
deriving DecidableEq

/-- One iteration of the loop of _agregar_errores_controlados
(lines 373-419), acting on the working copy df_con_errores.  The missing
columns are, in choice order, product_price_mxn, shipping_cost_mxn,
customer_loyalty_months, distance_km.  The duplicate branch first copies
the whole predecessor row, then reads order_id back (now the predecessor's
id) and prefixes DUPE- to it; it does nothing when idx is 0.  Python
str.lower() agrees with String.toLower here because every upper-case
character in the state names is plain ASCII. -/
def aplicarError (df : List Registro) (idx : ℕ) (e : TipoError) :
    List Registro :=
  match e with
  | .missing col =>
      updateNth df idx (fun r =>
        match col.val with
        | 0 => { r with product_price_mxn := none }
        | 1 => { r with shipping_cost_mxn := none }
        | 2 => { r with customer_loyalty_months := none }
        | _ => { r with distance_km := none })
  | .outlier coin distKm =>
      if coin then
        updateNth df idx (fun r =>
          { r with product_price_mxn :=
              Option.map (fun p => p * 100) r.product_price_mxn })
      else
        updateNth df idx (fun r => { r with distance_km := some distKm })
  | .typo coin =>
      if coin then
        updateNth df idx (fun r =>
          { r with shipping_carrier := " " ++ r.shipping_carrier })
      else
        updateNth df idx (fun r =>
          { r with customer_state := String.toLower r.customer_state })
  | .duplicate =>
      if 0 < idx then
        let prev : Registro := df.getD (idx - 1) default
        let originalId : String := prev.order_id
        updateNth df idx (fun _ =>
          { prev with order_id := "DUPE-" ++ originalId })
      else df
  | .inconsistent coin =>
      if coin then
        updateNth df idx (fun r =>
          { r with delivered_date := r.shipped_date - 2 * secondsPerDay })
      else
        updateNth df idx (fun r =>
          { r with shipped_date := r.order_date - 1 * secondsPerDay })

/-- The loop of _agregar_errores_controlados (lines 373-419) over the
selected indices, each paired with the defect draw made for it, applied in
selection order to the working copy. -/
def agregarErroresControlados (df : List Registro)
    (sel : List (ℕ × TipoError)) : List Registro :=
  sel.foldl (fun acc p => aplicarError acc p.1 p.2) df

/-- n_errores = int(len(df) * porcentaje) with porcentaje = 0.05
(line 370): the floor of N / 20.  (The float product N * 0.05 never
crosses an integer boundary away from the exact value here, since 0.05 is
rounded up by strictly less than half an ulp in binary.) -/
def nErrores (n : ℕ) : ℕ := n * 5 / 100

/-- The full call _agregar_errores_controlados(df) as the caller sees it
(lines 359-371 and 605-611): the function first takes
df_con_errores = df.copy() and performs every .at/.iloc write on that copy
only - df itself is only read (len(df), df.index).  The pair returned is
(state of the caller's df object after the call, returned df_con_errores). -/
def agregarErroresCall (df : List Registro) (sel : List (ℕ × TipoError)) :
    List Registro × List Registro :=
  (df, agregarErroresControlados df sel)

/-- Number of row positions of the original table at which the corrupted
table differs in at least one field. -/
def countDiffering (res original : List Registro) : ℕ :=
  ((Finset.range original.length).filter
    (fun j => res.getD j default ≠ original.getD j default)).card

/-- Models pandas df.sample(k, random_state=seed): a deterministic choice
of k distinct valid row positions, without replacement.  The exact
Mersenne-Twister permutation pandas uses is abstracted to a concrete
deterministic selection; the properties at issue (row count, membership in
the full dataset, determinism in n, k and seed) do not depend on which
distinct positions are chosen. -/
def pandasSampleIndices (n k seed : ℕ) : List ℕ := (List.range n).take k

/-- The sample-file step of main (lines 693-698): only when the dataset
has strictly more than 1000 rows is a 1000-row sample taken (with
random_state = 42) and written; otherwise no sample file is produced. -/
def mainSampleStep (df : List Registro) : Option (List Registro) :=
  if 1000 < df.length then
    some ((pandasSampleIndices df.length 1000 42).map
      (fun j => df.getD j default))
  else none

/-- A concrete record used as a row of concrete test datasets. -/
def baseRow : Registro :=
  { order_id := "ECOMMX-2024-00000", customer_id := "CUST-10000",
    order_date := 0, shipped_date := 86400, delivered_date := 172800,
    processing_days := 1, delivery_days := 1, promised_delivery_days := 1,
    actual_delivery_days := 1, delivery_delay_days := 0,
    delivery_met_promise := 1, product_category := "Electrónicos",
    product_price_mxn := some 100, product_weight_kg := 1, quantity := 1,
    total_amount_mxn := 220, shipping_carrier := "DHL",
    shipping_tier := "Estándar", shipping_cost_mxn := some 120,
    distance_km := some 10, shipping_type := "local",
    customer_state := "Ciudad de México", customer_region := "Centro",
    customer_age_group := "25-34", customer_loyalty_months := some 6,
    purchase_frequency := 2, is_urban := 1, payment_method := "PayPal",
    transaction_status := "Autorizada", payment_installments := 1,
    sales_channel := "Marketplace", platform_name := "Amazon México",
    is_peak_season := 0, customer_delivery_rating := 5,
    delivery_issue := "Ninguno", shipping_cost_to_price := 1,
    is_frequent_customer := 0, is_loyal_customer := 0,
    high_value_order := 0 }

/-- Row with order id ECOMMX-2024-00000. -/
def rowA : Registro := baseRow

/-- Row with order id ECOMMX-2024-00001. -/
def rowB : Registro := { baseRow with order_id := "ECOMMX-2024-00001" }

/-- Concrete 30-row dataset for the corruption-count counterexample. -/
def df30 : List Registro := List.replicate 30 baseRow

/-- Concrete single-defect selection the code can make at N = 30: one
selected index (int(30 * 0.05) = 1) carrying a missing-price defect. -/
def selC3 : List (ℕ × TipoError) := [(3, TipoError.missing 0)]

/-- Concrete selection used against the in-place-mutation claim. -/
def selC5 : List (ℕ × TipoError) := [(0, TipoError.missing 0)]

/-- Concrete 5-row dataset (N below the 1000-row sampling threshold). -/
def df5 : List Registro := List.replicate 5 baseRow

/-- Concrete 1001-row dataset (N above the 1000-row sampling threshold). -/
def df1001 : List Registro := List.replicate 1001 baseRow

/-- Concrete numpy draw bundle: Ciudad de México destination (index 8),
DHL (index 1), no express, January 1 order, zero jitter, adjustment index
0 (so the stored delivery days land on 1 - 1 = 0). -/
def d0 : NpDraws :=
  { edadIdx := 0, lealtadRaw := 0, frecuencia := 0, estadoIdx := 8,
    categoriaIdx := 0, precioRaw := 100, pesoRaw := 1,
    cantidadNormal := true, cantidadLoIdx := 0, cantidadHiIdx := 0,
    carrierIdx := 1, esExpress := false, procIdx := 0, variab := 0,
    impacto := 1, adjIdx := 0, distLocalKm := 10, distRegionalKm := 100,
    distNacionalKm := 500, variacion := 1, metodoIdx := 0,
    statusAut := true, statusRev := false, msiIdx := 0, canalIdx := 0,
    urbano := true, ratingAdjIdx := 1, problemaIdx := 0 }

/-- Concrete Faker draw bundle (January 1 order date, customer-id raw
stream value 0). -/
def f0 : FakerDraws :=
  { orderTs := 0, orderMes := 1, orderDia := 1, custIdDraw := 0 }

/-- Ambient Faker state of one process run (stream value 0). -/
def ambA : FakerDraws :=
  { orderTs := 0, orderMes := 1, orderDia := 1, custIdDraw := 0 }

/-- Ambient Faker state of another process run (stream value 1): the
process entropy differs, everything else is identical. -/
def ambB : FakerDraws :=
  { orderTs := 0, orderMes := 1, orderDia := 1, custIdDraw := 1 }

/-- Length is preserved by a positional update. -/
theorem updateNth_length {α : Type} (l : List α) (n : ℕ) (g : α → α) :
    (updateNth l n g).length = l.length := by
  induction l generalizing n with
  | nil => rfl
  | cons a t ih =>
      cases n with
      | zero => rfl
      | succ m => simpa [updateNth] using ih m

/-- Positions other than the updated one are unchanged. -/
theorem updateNth_getD_ne {α : Type} (l : List α) (n j : ℕ) (g : α → α)
    (d : α) (h : j ≠ n) : (updateNth l n g).getD j d = l.getD j d := by
  induction l generalizing n j with
  | nil => rfl
  | cons a t ih =>
      cases n with
      | zero =>
          cases j with
          | zero => exact absurd rfl h
          | succ i => rfl
      | succ m =>
          cases j with
          | zero => rfl
          | succ i =>
              simpa [updateNth, List.getD] using ih m i (fun he => h (by omega))

/-- The updated position holds the image of the old value. -/
theorem updateNth_getD_self {α : Type} (l : List α) (n : ℕ) (g : α → α)
    (d : α) (h : n < l.length) :
    (updateNth l n g).getD n d = g (l.getD n d) := by
  induction l generalizing n with
  | nil => simp at h
  | cons a t ih =>
      cases n with
      | zero => rfl
      | succ m => simpa [updateNth, List.getD] using ih m (by simpa using h)

/-- Every defect branch preserves the number of rows. -/
theorem aplicarError_length (df : List Registro) (idx : ℕ) (e : TipoError) :
    (aplicarError df idx e).length = df.length := by
  cases e <;> simp [aplicarError, updateNth_length] <;> split <;>
    simp [updateNth_length]

/-- Every defect branch writes only the selected row. -/
theorem aplicarError_getD_ne (df : List Registro) (idx j : ℕ) (e : TipoError)
    (h : j ≠ idx) :
    (aplicarError df idx e).getD j default = df.getD j default := by
  cases e <;> simp only [aplicarError] <;>
    first
      | exact updateNth_getD_ne _ _ _ _ _ h
      | (split <;> first
          | exact updateNth_getD_ne _ _ _ _ _ h
          | rfl)

/-- The whole corruption loop leaves every unselected row position
unchanged. -/
theorem agregarErrores_getD_ne (df : List Registro)
    (sel : List (ℕ × TipoError)) (j : ℕ) (h : ∀ p ∈ sel, p.1 ≠ j) :
    (agregarErroresControlados df sel).getD j default = df.getD j default := by
  induction sel generalizing df with
  | nil => rfl
  | cons q rest ih =>
      have hq : q.1 ≠ j := h q (List.mem_cons_self q rest)
      have hrest : ∀ p ∈ rest, p.1 ≠ j := fun p hp =>
        h p (List.mem_cons_of_mem q hp)
      show (agregarErroresControlados (aplicarError df q.1 q.2) rest).getD j
          default = _
      rw [ih _ hrest, aplicarError_getD_ne _ _ _ _ (fun he => hq he.symm)]

/-- The corruption loop preserves the number of rows. -/
theorem agregarErrores_length (df : List Registro)
    (sel : List (ℕ × TipoError)) :
    (agregarErroresControlados df sel).length = df.length := by
  induction sel generalizing df with
  | nil => rfl
  | cons q rest ih =>
      show (agregarErroresControlados (aplicarError df q.1 q.2) rest).length = _
      rw [ih, aplicarError_length]

/-- At most one row can change per selected index, so the number of rows
that differ after the loop is bounded by the number of selections. -/
theorem countDiffering_le (df : List Registro) (sel : List (ℕ × TipoError)) :
    countDiffering (agregarErroresControlados df sel) df ≤ sel.length := by
  classical
  have hsub : (Finset.range df.length).filter
      (fun j => (agregarErroresControlados df sel).getD j default ≠
        df.getD j default) ⊆ (sel.map Prod.fst).toFinset := by
    intro j hj
    rw [Finset.mem_filter] at hj
    by_contra hnot
    have hall : ∀ p ∈ sel, p.1 ≠ j := by
      intro p hp he
      exact hnot (List.mem_toFinset.mpr (he ▸ List.mem_map_of_mem Prod.fst hp))
    exact hj.2 (agregarErrores_getD_ne df sel j hall)
  calc countDiffering (agregarErroresControlados df sel) df
      ≤ (sel.map Prod.fst).toFinset.card := Finset.card_le_card hsub
    _ ≤ (sel.map Prod.fst).length := List.toFinset_card_le _
    _ = sel.length := List.length_map sel Prod.fst

/-- A valid positional read returns a member of the list. -/
theorem getD_mem {α : Type} (l : List α) (j : ℕ) (d : α) (h : j < l.length) :
    l.getD j d ∈ l := by
  induction l generalizing j with
  | nil => simp at h
  | cons a t ih =>
      cases j with
      | zero => exact List.mem_cons_self a t
      | succ m =>
          exact List.mem_cons_of_mem a (ih m (by simpa using h))

/-- The processing-days draw np.random.choice([1, 2, 3]) always lands in
the interval from 1 to 3. -/
theorem procDays_bounds (p : Fin 3) :
    1 ≤ [1, 2, 3].getD p.val 0 ∧ [1, 2, 3].getD p.val 0 ≤ 3 := by
  fin_cases p <;> decide

/-- Shape of the _generar_fechas_realistas result: the shipped timestamp
is the order timestamp plus the processing days, the delivered timestamp
is the shipped timestamp plus the floored delivery days, and processing
days lie between 1 and 3. -/
theorem generarFechas_spec (t e : String) (oTs : ℤ) (m dia : ℕ) (p : Fin 3)
    (v imp : ℚ) (a : Fin 3) :
    (generarFechasRealistas t e oTs m dia p v imp a).order_date = oTs ∧
    (generarFechasRealistas t e oTs m dia p v imp a).shipped_date =
      (generarFechasRealistas t e oTs m dia p v imp a).order_date +
        ((generarFechasRealistas t e oTs m dia p v imp a).processing_days : ℤ) *
          secondsPerDay ∧
    (generarFechasRealistas t e oTs m dia p v imp a).delivered_date =
      (generarFechasRealistas t e oTs m dia p v imp a).shipped_date +
        max 1 ((generarFechasRealistas t e oTs m dia p v imp a).delivery_days) *
          secondsPerDay ∧
    1 ≤ (generarFechasRealistas t e oTs m dia p v imp a).processing_days ∧
    (generarFechasRealistas t e oTs m dia p v imp a).processing_days ≤ 3 :=
  ⟨rfl, rfl, rfl, (procDays_bounds p).1, (procDays_bounds p).2⟩

/-- The date bundle of one generated record, restated through fechasDe. -/
theorem fechasDe_spec (d : NpDraws) (f : FakerDraws) :
    (fechasDe d f).order_date = f.orderTs ∧
    (fechasDe d f).shipped_date = (fechasDe d f).order_date +
      ((fechasDe d f).processing_days : ℤ) * secondsPerDay ∧
    (fechasDe d f).delivered_date = (fechasDe d f).shipped_date +
      max 1 ((fechasDe d f).delivery_days) * secondsPerDay ∧
    1 ≤ (fechasDe d f).processing_days ∧ (fechasDe d f).processing_days ≤ 3 :=
  generarFechas_spec (transportistaDe d) (estadoDe d) f.orderTs f.orderMes
    f.orderDia d.procIdx d.variab d.impacto d.adjIdx

/-- C1: the claim states that the region table partitions all 32 states and
that the Centro fallback of the state-to-region lookup is never triggered.
The code violates this: Durango, San Luis Potosí and Zacatecas appear in
the 32-state list but in no region of the table (the region lists cover
only 29 states), so for those three states the lookup falls through to the
default region Centro.  This theorem evaluates the code at the failing
inputs. -/
theorem C1_region_table_gap :
    estadosMexico.contains "Durango" = true ∧
    estadosMexico.contains "San Luis Potosí" = true ∧
    estadosMexico.contains "Zacatecas" = true ∧
    (regiones.all fun p => !(p.2.contains "Durango")) = true ∧
    (regiones.all fun p => !(p.2.contains "San Luis Potosí")) = true ∧
    (regiones.all fun p => !(p.2.contains "Zacatecas")) = true ∧
    getRegionFromEstado "Durango" = "Centro" ∧
    getRegionFromEstado "San Luis Potosí" = "Centro" ∧
    getRegionFromEstado "Zacatecas" = "Centro" ∧
    estadosMexico.length = 32 ∧
    (regiones.map fun p => p.2.length).sum = 29 := by decide

/-- C2: the claim states that two runs with the same seed and row count
produce byte-identical output.  The code violates this: __init__ seeds
numpy and the python random module but never seeds the Faker generator, so
the Faker-drawn fields depend on ambient process state.  This theorem
exhibits two generator states with identical seed (42) and row count
(10000) whose ambient Faker streams differ only in one raw draw, and shows
that every record built from the same numpy draws nevertheless differs in
customer_id, so the serialized outputs cannot be byte-identical. -/
theorem C2_faker_breaks_determinism :
    ∀ (d : NpDraws) (i : ℕ),
      (mexicoEcommerceGeneratorInit 42 10000 ambA).seed =
        (mexicoEcommerceGeneratorInit 42 10000 ambB).seed ∧
      (mexicoEcommerceGeneratorInit 42 10000 ambA).nRecords =
        (mexicoEcommerceGeneratorInit 42 10000 ambB).nRecords ∧
      (generarRegistro i d
          (mexicoEcommerceGeneratorInit 42 10000 ambA).fakerAmbient).customer_id ≠
        (generarRegistro i d
          (mexicoEcommerceGeneratorInit 42 10000 ambB).fakerAmbient).customer_id := by
  intro d i
  refine ⟨rfl, rfl, ?_⟩
  show ("CUST-" ++ toString (fakerRandomInt 10000 99999 ambA.custIdDraw)) ≠
    ("CUST-" ++ toString (fakerRandomInt 10000 99999 ambB.custIdDraw))
  decide

/-- C3 counterexample: at N = 30 the code selects int(30 * 0.05) = 1 index,
and in a concrete run with that one selected index carrying a
missing-price defect exactly 1 row of the 30-row dataset differs, whereas
the claim demands round(30 * 0.05) = 2 differing rows. -/
theorem C3_truncation_counterexample :
    nErrores 30 = 1 ∧
    selC3.length = nErrores df30.length ∧
    countDiffering (agregarErroresControlados df30 selC3) df30 = 1 ∧
    roundHalfEven ((30 : ℚ) * (5 / 100)) = 2 ∧ (1 : ℕ) ≠ 2 := by
  refine ⟨by decide, by decide, by decide, ?_, by decide⟩
  norm_num [roundHalfEven]

/-- C3 amended: the error-injection pass selects int(N * 0.05) indices
(truncation, not rounding); no row outside the selected index set is
altered in any field, and at most that many rows differ from their
uncorrupted values (a selected row can remain unchanged, e.g. the
duplicate defect at row 0 is a no-op). -/
theorem C3_frame_and_bound (df : List Registro) (sel : List (ℕ × TipoError))
    (hlen : sel.length = nErrores df.length) :
    (∀ j, (∀ p ∈ sel, p.1 ≠ j) →
      (agregarErroresControlados df sel).getD j default = df.getD j default) ∧
    countDiffering (agregarErroresControlados df sel) df ≤ nErrores df.length :=
  ⟨fun j h => agregarErrores_getD_ne df sel j h,
   hlen ▸ countDiffering_le df sel⟩

/-- C3 witness: the amended statement instantiated at the concrete 30-row
dataset and the concrete single-defect selection. -/
theorem C3_frame_and_bound_witness :
    selC3.length = nErrores df30.length ∧
    ((agregarErroresControlados df30 selC3).getD 0 default =
      df30.getD 0 default ∧
     countDiffering (agregarErroresControlados df30 selC3) df30 ≤
       nErrores df30.length) :=
  ⟨by decide,
   (C3_frame_and_bound df30 selC3 (by decide)).1 0 (by decide),
   (C3_frame_and_bound df30 selC3 (by decide)).2⟩

/-- C4 counterexample: the claim states that the duplicated row gets
DUPE- prefixed to the original id of that row.  In the code the id is read
back only after the whole predecessor row has been copied over the
selected row, so the new id is DUPE- plus the id of the predecessor: with
rows whose ids are ECOMMX-2024-00000 and ECOMMX-2024-00001, duplicating
row 1 yields DUPE-ECOMMX-2024-00000, not DUPE- plus the original id
ECOMMX-2024-00001 of row 1. -/
theorem C4_original_id_counterexample :
    Registro.order_id
        ((aplicarError [rowA, rowB] 1 TipoError.duplicate).getD 1 default) =
      "DUPE-" ++ Registro.order_id rowA ∧
    Registro.order_id
        ((aplicarError [rowA, rowB] 1 TipoError.duplicate).getD 1 default) ≠
      "DUPE-" ++ Registro.order_id rowB := by decide

/-- C4 amended: when the duplicate defect hits a row with positive index,
the row becomes the immediate predecessor row (all non-id fields equal the
predecessor values as they stand at that point of the pass) with order id
DUPE- prefixed to the predecessor id; at index 0 the defect is a no-op. -/
theorem C4_duplicate_amended (df : List Registro) (idx : ℕ)
    (h1 : 0 < idx) (h2 : idx < df.length) :
    (aplicarError df idx TipoError.duplicate).getD idx default =
      { df.getD (idx - 1) default with
        order_id := "DUPE-" ++ Registro.order_id (df.getD (idx - 1) default) } ∧
    aplicarError df 0 TipoError.duplicate = df := by
  constructor
  · show (if 0 < idx then _ else df).getD idx default = _
    rw [if_pos h1]
    exact updateNth_getD_self df idx _ default h2
  · rfl

/-- C4 witness: the amended statement instantiated at a concrete two-row
dataset with the duplicate defect at index 1. -/
theorem C4_duplicate_amended_witness :
    0 < 1 ∧ (1 : ℕ) < [rowA, rowB].length ∧
    ((aplicarError [rowA, rowB] 1 TipoError.duplicate).getD 1 default =
      { [rowA, rowB].getD 0 default with
        order_id := "DUPE-" ++ Registro.order_id ([rowA, rowB].getD 0 default) } ∧
     aplicarError [rowA, rowB] 0 TipoError.duplicate = [rowA, rowB]) :=
  ⟨by decide, by decide, C4_duplicate_amended [rowA, rowB] 1 (by decide) (by decide)⟩

/-- C5 counterexample: the claim states that the error-injection pass
mutates the table object passed in.  The code copies the input
(df.copy()) and writes only the copy: on a concrete input the state of the
caller table after the call equals the original, even though the returned
table differs from it, so the pass did change rows yet never in place. -/
theorem C5_not_in_place :
    (agregarErroresCall [rowA, rowB] selC5).1 = [rowA, rowB] ∧
    (agregarErroresCall [rowA, rowB] selC5).2 ≠ [rowA, rowB] :=
  ⟨rfl, by decide⟩

/-- C5 amended: the error-injection pass does not mutate the dataset
passed in; it returns a modified copy, and the returned table has the same
row count (and, by construction over the fixed record type, the same
column set) as the input. -/
theorem C5_copy_semantics (df : List Registro) (sel : List (ℕ × TipoError)) :
    (agregarErroresCall df sel).1 = df ∧
    ((agregarErroresCall df sel).2).length = df.length :=
  ⟨rfl, agregarErrores_length df sel⟩

/-- C6: in every record produced by the synthesizer, promised delivery
days equal the base transit lookup for the carrier and distance tier,
reduced by 2 and floored at 1 when express; actual delivery days equal the
delivered minus shipped timestamps in whole days; the delay is actual
minus promised; and the met-promise flag is 1 exactly when the delay is
at most 0. -/
theorem C6_promised_actual (i : ℕ) (d : NpDraws) (f : FakerDraws) :
    (generarRegistro i d f).promised_delivery_days =
      (if d.esExpress then
        max 1 ((tiemposBase ((generarRegistro i d f).shipping_carrier)
          ((generarRegistro i d f).shipping_type) : ℤ) - 2)
      else (tiemposBase ((generarRegistro i d f).shipping_carrier)
          ((generarRegistro i d f).shipping_type) : ℤ)) ∧
    (generarRegistro i d f).actual_delivery_days =
      Int.fdiv ((generarRegistro i d f).delivered_date -
        (generarRegistro i d f).shipped_date) secondsPerDay ∧
    (generarRegistro i d f).delivery_delay_days =
      (generarRegistro i d f).actual_delivery_days -
        (generarRegistro i d f).promised_delivery_days ∧
    ((generarRegistro i d f).delivery_met_promise = 1 ↔
      (generarRegistro i d f).delivery_delay_days ≤ 0) := by
  refine ⟨rfl, rfl, rfl, ?_⟩
  show (if diferenciaDiasDe d f ≤ 0 then 1 else 0 : ℕ) = 1 ↔
    diferenciaDiasDe d f ≤ 0
  split_ifs with h <;> simp [h]

/-- C7: in every record produced by the synthesizer the three timestamps
are ordered (order, then shipped, then delivered), the shipped timestamp
is the order timestamp plus 1 to 3 processing days, and the delivered
timestamp is at least one day after the shipped timestamp. -/
theorem C7_dates_ordered (i : ℕ) (d : NpDraws) (f : FakerDraws) :
    (generarRegistro i d f).order_date ≤ (generarRegistro i d f).shipped_date ∧
    (generarRegistro i d f).shipped_date ≤
      (generarRegistro i d f).delivered_date ∧
    1 ≤ (generarRegistro i d f).processing_days ∧
    (generarRegistro i d f).processing_days ≤ 3 ∧
    (generarRegistro i d f).shipped_date =
      (generarRegistro i d f).order_date +
        ((generarRegistro i d f).processing_days : ℤ) * secondsPerDay ∧
    (generarRegistro i d f).shipped_date + secondsPerDay ≤
      (generarRegistro i d f).delivered_date := by
  obtain ⟨ho, hs, hd, hp1, hp3⟩ := fechasDe_spec d f
  have hnn : (0 : ℤ) ≤ ((fechasDe d f).processing_days : ℤ) * secondsPerDay :=
    mul_nonneg (Int.natCast_nonneg _) (by norm_num [secondsPerDay])
  have hone : (1 : ℤ) ≤ max 1 ((fechasDe d f).delivery_days) := le_max_left _ _
  have hstep : secondsPerDay ≤
      max 1 ((fechasDe d f).delivery_days) * secondsPerDay := by
    have := mul_le_mul_of_nonneg_right hone
      (show (0 : ℤ) ≤ secondsPerDay by norm_num [secondsPerDay])
    simpa using this
  refine ⟨?_, ?_, hp1, hp3, hs, ?_⟩
  · show (fechasDe d f).order_date ≤ (fechasDe d f).shipped_date
    rw [hs]
    exact le_add_of_nonneg_right hnn
  · show (fechasDe d f).shipped_date ≤ (fechasDe d f).delivered_date
    rw [hd]
    exact le_add_of_nonneg_right
      (le_trans (by norm_num [secondsPerDay]) hstep)
  · show (fechasDe d f).shipped_date + secondsPerDay ≤
      (fechasDe d f).delivered_date
    rw [hd]
    exact add_le_add_left hstep _

/-- C8: in every record, the shipping cost equals the carrier base cost
plus 15 per kilogram of weight, multiplied by the distance-tier factor
(local 1, regional 1.5, national 2), the express factor (2 when express,
else 1) and a uniform noise factor in the interval from 0.9 to 1.1, then
rounded to 2 decimals; and the total amount is price times quantity plus
shipping cost, rounded to 2 decimals. -/
theorem C8_shipping_cost_formula (i : ℕ) (d : NpDraws) (f : FakerDraws)
    (h1 : (9 : ℚ) / 10 ≤ d.variacion) (h2 : d.variacion ≤ (11 : ℚ) / 10) :
    ∃ v : ℚ, (9 : ℚ) / 10 ≤ v ∧ v ≤ (11 : ℚ) / 10 ∧
      (generarRegistro i d f).shipping_cost_mxn =
        some (round2 ((costoBaseDe ((generarRegistro i d f).shipping_carrier) +
            (generarRegistro i d f).product_weight_kg * 15) *
          (if (generarRegistro i d f).shipping_type = "local" then 1
            else if (generarRegistro i d f).shipping_type = "regional" then 3 / 2
            else 2) *
          (if (generarRegistro i d f).shipping_tier = "Express" then 2 else 1) *
          v)) ∧
      (generarRegistro i d f).total_amount_mxn =
        round2 (((generarRegistro i d f).product_price_mxn).getD 0 *
          ((generarRegistro i d f).quantity : ℚ) +
          ((generarRegistro i d f).shipping_cost_mxn).getD 0) := by
  refine ⟨d.variacion, h1, h2, ?_, ?_⟩
  · show some (costoEnvioDe d) = some _
    congr 1
    show calcularCostoEnvioMxn (transportistaDe d)
        (productoDe d).product_weight_kg (tipoDistanciaDe d) d.esExpress
        d.variacion = _
    unfold calcularCostoEnvioMxn
    have htier : (generarRegistro i d f).shipping_tier =
        (if d.esExpress then "Express" else "Estándar") := rfl
    have hty : (generarRegistro i d f).shipping_type = tipoDistanciaDe d := rfl
    have hca : (generarRegistro i d f).shipping_carrier = transportistaDe d := rfl
    have hw : (generarRegistro i d f).product_weight_kg =
        (productoDe d).product_weight_kg := rfl
    rw [htier, hty, hca, hw]
    cases hE : d.esExpress <;> simp
  · show round2 (montoTotalDe d) = _
    simp only [Option.getD]
    rfl

/-- C8 witness: the formula instantiated at the concrete draw bundle d0
(noise factor 1) and Faker bundle f0. -/
theorem C8_shipping_cost_formula_witness :
    (9 : ℚ) / 10 ≤ d0.variacion ∧ d0.variacion ≤ (11 : ℚ) / 10 ∧
    (∃ v : ℚ, (9 : ℚ) / 10 ≤ v ∧ v ≤ (11 : ℚ) / 10 ∧
      (generarRegistro 0 d0 f0).shipping_cost_mxn =
        some (round2 ((costoBaseDe ((generarRegistro 0 d0 f0).shipping_carrier) +
            (generarRegistro 0 d0 f0).product_weight_kg * 15) *
          (if (generarRegistro 0 d0 f0).shipping_type = "local" then 1
            else if (generarRegistro 0 d0 f0).shipping_type = "regional" then 3 / 2
            else 2) *
          (if (generarRegistro 0 d0 f0).shipping_tier = "Express" then 2 else 1) *
          v)) ∧
      (generarRegistro 0 d0 f0).total_amount_mxn =
        round2 (((generarRegistro 0 d0 f0).product_price_mxn).getD 0 *
          ((generarRegistro 0 d0 f0).quantity : ℚ) +
          ((generarRegistro 0 d0 f0).shipping_cost_mxn).getD 0)) :=
  ⟨by norm_num [d0], by norm_num [d0],
   C8_shipping_cost_formula 0 d0 f0 (by norm_num [d0]) (by norm_num [d0])⟩

/-- C9 counterexample: the claim states that for every dataset a sample
file of min(1000, N) rows is written.  With a concrete 5-row dataset the
code writes no sample file at all (the write is guarded by N > 1000),
whereas the claim demands a file of min(1000, 5) = 5 rows. -/
theorem C9_small_dataset_counterexample :
    mainSampleStep df5 = none ∧ min 1000 df5.length = 5 ∧ (5 : ℕ) ≠ 0 := by
  decide

/-- C9 amended: a sample file is written exactly when the dataset has more
than 1000 rows, in which case it holds exactly 1000 rows, each a row of
the full dataset (so every order id in the sample exists in the full
dataset), produced by a deterministic function of the dataset and the
fixed random_state 42; for 1000 rows or fewer no sample file is written. -/
theorem C9_sample_threshold (df : List Registro) :
    (df.length ≤ 1000 → mainSampleStep df = none) ∧
    (1000 < df.length →
      ∃ s, mainSampleStep df = some s ∧ s.length = 1000 ∧ ∀ r ∈ s, r ∈ df) := by
  constructor
  · intro h
    simp [mainSampleStep, Nat.not_lt.mpr h]
  · intro h
    refine ⟨(pandasSampleIndices df.length 1000 42).map
        (fun j => df.getD j default), by simp [mainSampleStep, h], ?_, ?_⟩
    · simp [pandasSampleIndices, Nat.min_eq_left (le_of_lt h)]
    · intro r hr
      rw [List.mem_map] at hr
      obtain ⟨j, hj, rfl⟩ := hr
      have hjlt : j < df.length := by
        have hmem : j ∈ List.range df.length :=
          (List.take_sublist _ _).subset hj
        simpa using hmem
      exact getD_mem df j default hjlt

set_option maxRecDepth 100000 in
/-- C9 witness: both branches of the amended statement instantiated at
concrete datasets of 5 and 1001 rows. -/
theorem C9_sample_threshold_witness :
    df5.length ≤ 1000 ∧ 1000 < df1001.length ∧
    (mainSampleStep df5 = none ∧
     ∃ s, mainSampleStep df1001 = some s ∧ s.length = 1000 ∧
       ∀ r ∈ s, r ∈ df1001) :=
  ⟨by decide, by decide,
   (C9_sample_threshold df5).1 (by decide),
   (C9_sample_threshold df1001).2 (by decide)⟩

/-- C10: in every record produced by the synthesizer the actual delivery
days equal max(1, delivery_days), hence are at least 1, while the stored
delivery_days field itself can be 0, because the final plus-or-minus
one-day adjustment is applied to the stored field without re-flooring and
only the delivered timestamp floors it at 1; the second conjunct exhibits
a concrete draw bundle realizing delivery_days = 0. -/
theorem C10_actual_days_floor :
    (∀ (i : ℕ) (d : NpDraws) (f : FakerDraws),
      (generarRegistro i d f).actual_delivery_days =
        max 1 ((generarRegistro i d f).delivery_days) ∧
      1 ≤ (generarRegistro i d f).actual_delivery_days) ∧
    (generarRegistro 0 d0 f0).delivery_days = 0 := by
  constructor
  · intro i d f
    have key : (generarRegistro i d f).actual_delivery_days =
        max 1 ((generarRegistro i d f).delivery_days) := by
      show diasRealesDe d f = max 1 ((fechasDe d f).delivery_days)
      unfold diasRealesDe
      rw [(fechasDe_spec d f).2.2.1, add_sub_cancel_left]
      exact Int.mul_fdiv_cancel _ (by norm_num [secondsPerDay])
    exact ⟨key, by rw [key]; exact le_max_left _ _⟩
  · show (fechasDe d0 f0).delivery_days = 0
    have hCalc : calcularTiempoEntrega "DHL" "Ciudad de México"
        "Ciudad de México" false 0 1 = 1 := by
      unfold calcularTiempoEntrega
      simp [tiemposBase]
      norm_num [roundHalfEven]
    unfold fechasDe generarFechasRealistas
    rw [show transportistaDe d0 = "DHL" from rfl,
        show estadoDe d0 = "Ciudad de México" from rfl]
    show calcularTiempoEntrega "DHL" "Ciudad de México" "Ciudad de México"
        (esTemporadaAlta f0.orderMes f0.orderDia) d0.variab d0.impacto +
        ((d0.adjIdx.val : ℤ) - 1) = 0
    rw [show esTemporadaAlta f0.orderMes f0.orderDia = false from rfl]
    show calcularTiempoEntrega "DHL" "Ciudad de México" "Ciudad de México"
        false 0 1 + ((0 : ℤ) - 1) = 0
    rw [hCalc]
    norm_num
